import Mathlib

/-!
# Rent_Payment_System: the deployment script `scripts/deploy.js`

A shallow embedding of `main()` and of the top-level driver
`main().then(() => process.exit(0)).catch(...)`.

The script is sequential glue over the Hardhat/ethers provider and the Node
file system.  Everything the script awaits is taken from an explicit `World`:
each awaited call either returns a value or throws (`Except String _`, the
string being the failure cause).  The run threads an explicit `State`: the
chronological trace of observable events (console lines, calls made, the exit)
and the file system.

Modelling conventions
* `hre.network.name` is a string; `hre.network.config.chainId` is a number or
  `undefined` (`Option Nat`, `none` = `undefined`).
* `deploymentTx.blockNumber` is a number or `null` (`Option Nat`, `none` = `null`),
  as ethers reports it for a transaction that was still pending when the
  response object was built.
* chain ids, block numbers and the on-chain constants are printed in decimal.
* `ethers.formatEther` and the JS floating point quotient `Number(x) / 86400`
  are library behaviour and are parameters of the world.
* `console.error("❌ Deployment failed:", error)` prints the failure cause.
* `RentPaymentSystem.deploy()` resolves to a contract that carries its
  deployment transaction, so `deploymentTransaction()` is not `null`.
* `ethers.getSigners()` may resolve to an empty array (no account configured);
  `deployer` is then `undefined` and reading `deployer.address` throws.
* The file system is the set of directories and the files with their content;
  `fs.mkdirSync` and `fs.writeFileSync` throw when the path is not acceptable
  or when the operating system refuses.
-/

namespace Deploy

/-! ## JSON.stringify on a flat object literal -/

/-- Value of a property of an object literal handed to `JSON.stringify`. -/
inductive JSVal where
  | undefined
  | null
  | num (n : Nat)
  | str (s : String)
deriving DecidableEq, Repr

/-- Lower-case hexadecimal digit. -/
def hexDigit (n : Nat) : Char :=
  Char.ofNat (if n < 10 then 48 + n else 87 + n)

/-- Escape of one character inside a JSON string (ECMAScript QuoteJSONString). -/
def quoteChar (c : Char) : List Char :=
  if c.toNat = 34 then [Char.ofNat 92, Char.ofNat 34]
  else if c.toNat = 92 then [Char.ofNat 92, Char.ofNat 92]
  else if c.toNat = 8 then [Char.ofNat 92, 'b']
  else if c.toNat = 12 then [Char.ofNat 92, 'f']
  else if c.toNat = 10 then [Char.ofNat 92, 'n']
  else if c.toNat = 13 then [Char.ofNat 92, 'r']
  else if c.toNat = 9 then [Char.ofNat 92, 't']
  else if c.toNat < 32 then
    [Char.ofNat 92, 'u', '0', '0', hexDigit (c.toNat / 16), hexDigit (c.toNat % 16)]
  else [c]

/-- JSON text of a string: the escaped characters between double quotes. -/
def quoteJSONString (s : String) : String :=
  ⟨Char.ofNat 34 :: ((s.data.map quoteChar).flatten ++ [Char.ofNat 34])⟩

/-- JSON text of a property value; `undefined` has none. -/
def serializeValue : JSVal → Option String
  | .undefined => none
  | .null => some "null"
  | .num n => some (toString n)
  | .str s => some (quoteJSONString s)

/-- One `key: value` member of the output; a property whose value is `undefined`
is skipped by `JSON.stringify`. -/
def serializeProperty (gap : String) (kv : String × JSVal) : Option String :=
  match serializeValue kv.2 with
  | none => none
  | some v =>
    some (gap ++ quoteJSONString kv.1 ++ (if gap = "" then ":" else ": ") ++ v)

/-- Keys of the members that `JSON.stringify` emits for the object. -/
def serializedKeys (obj : List (String × JSVal)) : List String :=
  (obj.filter (fun kv => (serializeValue kv.2).isSome)).map Prod.fst

namespace JSON

/-- The call `JSON.stringify(obj, null, space)` on an object whose properties are
primitive values, in property order. -/
def stringify (obj : List (String × JSVal)) (space : Nat) : String :=
  let gap := String.mk (List.replicate (min space 10) ' ')
  match obj.filterMap (serializeProperty gap) with
  | [] => "\x7b\x7d"
  | ps =>
    if gap = "" then "\x7b" ++ String.intercalate "," ps ++ "\x7d"
    else "\x7b\n" ++ String.intercalate ",\n" ps ++ "\n\x7d"

end JSON

/-! ## The Node file system -/

/-- File system: the directories that exist and the regular files with their content. -/
structure FS where
  dirs : List String
  files : List (String × String)
deriving DecidableEq, Repr

/-- The empty working directory. -/
def emptyFS : FS := { dirs := [], files := [] }

/-- Directory part of a path: everything before the last `/`. -/
def dirname (p : String) : String :=
  ⟨((p.data.reverse.dropWhile (fun c => c != '/')).drop 1).reverse⟩

/-- Replace the content stored under `p`, or add the file. -/
def setFile (p c : String) : List (String × String) → List (String × String)
  | [] => [(p, c)]
  | (q, d) :: rest => if q = p then (p, c) :: rest else (q, d) :: setFile p c rest

/-- Content of the file at `p`, if there is one. -/
def FS.readFile (fs : FS) (p : String) : Option String :=
  fs.files.lookup p

/-- The call `fs.existsSync(p)`: true for a directory as well as for a file. -/
def FS.existsSync (fs : FS) (p : String) : Bool :=
  fs.dirs.contains p || (fs.files.lookup p).isSome

/-- The cause thrown by a call, if it throws. -/
def thrown {α : Type} : Except String α → Option String
  | .error e => some e
  | .ok _ => none

/-- Why `fs.mkdirSync(p)` throws, if it does; `os` is what the operating system
answers (permissions, disk) when the path itself is acceptable. -/
def FS.mkdirFault (fs : FS) (os : Except String Unit) (p : String) : Option String :=
  if fs.existsSync p then some ("EEXIST: file already exists, mkdir " ++ p)
  else if dirname p != "" && !fs.dirs.contains (dirname p) then
    some ("ENOENT: no such file or directory, mkdir " ++ p)
  else thrown os

/-- The call `fs.mkdirSync(p)`. -/
def FS.mkdirSync (fs : FS) (os : Except String Unit) (p : String) : Except String FS :=
  match fs.mkdirFault os p with
  | some e => .error e
  | none => .ok { fs with dirs := p :: fs.dirs }

/-- Why `fs.writeFileSync(p, data)` throws, if it does: the path is a directory,
or its directory does not exist, or the operating system refuses. -/
def FS.writeFault (fs : FS) (os : Except String Unit) (p : String) : Option String :=
  if fs.dirs.contains p then some ("EISDIR: illegal operation on a directory, open " ++ p)
  else if dirname p != "" && !fs.dirs.contains (dirname p) then
    some ("ENOENT: no such file or directory, open " ++ p)
  else thrown os

/-- The call `fs.writeFileSync(p, data)`: creates the file or replaces its content. -/
def FS.writeFileSync (fs : FS) (os : Except String Unit) (p data : String) :
    Except String FS :=
  match fs.writeFault os p with
  | some e => .error e
  | none => .ok { fs with files := setFile p data fs.files }

/-! ## The world the script runs in -/

/-- An account handle returned by `ethers.getSigners()`. -/
structure Signer where
  address : String
deriving DecidableEq, Repr

/-- The transaction response behind `rentPaymentSystem.deploymentTransaction()`. -/
structure TxResponse where
  hash : String
  blockNumber : Option Nat
deriving DecidableEq, Repr

/-- The receipt `deploymentTx.wait(2)` resolves to: the block that included the
transaction. -/
structure Receipt where
  blockNumber : Nat
deriving DecidableEq, Repr

/-- What the execution context answers to each thing the script asks of it. -/
structure World where
  /-- The value of `hre.network.name`. -/
  networkName : String
  /-- The value of `hre.network.config.chainId`; `none` is `undefined`. -/
  chainId : Option Nat
  getSigners : Except String (List Signer)
  getBalance : Except String Nat
  formatEther : Nat → String
  getContractFactory : Except String Unit
  /-- The call `RentPaymentSystem.deploy()`: the broadcast; the contract handle
  it returns carries the deployment transaction. -/
  deploy : Except String TxResponse
  waitForDeployment : Except String Unit
  getAddress : Except String String
  /-- The call `deploymentTx.wait(2)`. -/
  wait : Except String Receipt
  LATE_PENALTY_RATE : Except String Nat
  GRACE_PERIOD : Except String Nat
  SECONDS_IN_MONTH : Except String Nat
  /-- Text of the JS number `Number(x) / 86400`. -/
  days : Nat → String
  /-- The value of `new Date().toISOString()`. -/
  now : String
  /-- Answer of the operating system to `fs.mkdirSync`. -/
  mkdirSync : Except String Unit
  /-- Answer of the operating system to `fs.writeFileSync`. -/
  writeFileSync : Except String Unit

/-! ## Observable events and the run state -/

/-- The calls of the script that can throw. -/
inductive Call where
  | getSigners
  | deployerAddress
  | getBalance
  | getContractFactory
  | deploy
  | waitForDeployment
  | getAddress
  | wait
  | LATE_PENALTY_RATE
  | GRACE_PERIOD
  | SECONDS_IN_MONTH
  | mkdirSync
  | writeFileSync
deriving DecidableEq, Repr

/-- Position of a call in the pipeline. -/
def Call.index : Call → Nat
  | .getSigners => 0
  | .deployerAddress => 1
  | .getBalance => 2
  | .getContractFactory => 3
  | .deploy => 4
  | .waitForDeployment => 5
  | .getAddress => 6
  | .wait => 7
  | .LATE_PENALTY_RATE => 8
  | .GRACE_PERIOD => 9
  | .SECONDS_IN_MONTH => 10
  | .mkdirSync => 11
  | .writeFileSync => 12

/-- The calls of the try block of lines 54-65, whose failure is caught. -/
def Call.isReadBack : Call → Bool
  | .LATE_PENALTY_RATE => true
  | .GRACE_PERIOD => true
  | .SECONDS_IN_MONTH => true
  | _ => false

/-- One observable step of a run. -/
inductive Event where
  /-- A line written by `console.log`. -/
  | log (line : String)
  /-- A line written by `console.error`. -/
  | error (line : String)
  /-- A call was made and returned (`true`) or threw (`false`). -/
  | call (c : Call) (ok : Bool)
  /-- The call `process.exit(code)`. -/
  | exit (code : Nat)
deriving DecidableEq, Repr

/-- State threaded through a run: what has happened so far, in order, and the
file system. -/
structure State where
  trace : List Event
  fs : FS
deriving DecidableEq, Repr

/-- Append a `console.log` line. -/
def State.log (s : State) (line : String) : State :=
  { s with trace := s.trace ++ [Event.log line] }

/-- Record a call and whether it returned. -/
def State.call (s : State) (c : Call) (ok : Bool) : State :=
  { s with trace := s.trace ++ [Event.call c ok] }

/-- The TypeError of line 16 when `getSigners()` resolved to an empty array and
`deployer` is `undefined`. -/
def undefinedAddress : String :=
  "TypeError: Cannot read properties of undefined (reading \x27address\x27)"

/-- Text of a template-literal hole holding `chainId`. -/
def showChainId : Option Nat → String
  | none => "undefined"
  | some c => toString c

/-- The object literal `deploymentInfo` of lines 69-77. -/
def deploymentInfo (network : String) (chainId : Option Nat)
    (contractAddress deployerAddress transactionHash timestamp : String)
    (blockNumber : Option Nat) : List (String × JSVal) :=
  [ ("network", .str network),
    ("chainId", match chainId with | none => .undefined | some c => .num c),
    ("contractAddress", .str contractAddress),
    ("deployerAddress", .str deployerAddress),
    ("transactionHash", .str transactionHash),
    ("timestamp", .str timestamp),
    ("blockNumber", match blockNumber with | none => .null | some b => .num b) ]

/-- The path `deployments/${network}_deployment.json` of line 79. -/
def deploymentFile (network : String) : String :=
  "deployments/" ++ network ++ "_deployment.json"

/-- Lines 87-95: the closing console lines, with the verification guidance for a
network that is neither `hardhat` nor `localhost`. -/
def emitGuidance (network contractAddress : String) (s : State) : State :=
  let s := s.log ("💾 Deployment info saved to: " ++ deploymentFile network)
  let s :=
    if network != "hardhat" && network != "localhost" then
      (s.log "\n🔍 To verify the contract, run:").log
        ("npx hardhat verify --network " ++ network ++ " " ++ contractAddress)
    else s
  s.log "\n🎉 Deployment completed successfully!"

/-- Lines 67-95: build the record, create the directory if absent, write the
file, then print the closing lines. -/
def saveDeployment (w : World) (network : String) (chainId : Option Nat)
    (contractAddress : String) (deployer : Signer) (deploymentTx : TxResponse)
    (s : State) : Except String Unit × State :=
  let info := deploymentInfo network chainId contractAddress deployer.address
    deploymentTx.hash w.now deploymentTx.blockNumber
  let file := deploymentFile network
  let made : Except String Unit × State :=
    if !s.fs.existsSync "deployments" then
      match s.fs.mkdirSync w.mkdirSync "deployments" with
      | .error e => (.error e, s.call .mkdirSync false)
      | .ok fs1 => (.ok (), { s.call .mkdirSync true with fs := fs1 })
    else (.ok (), s)
  match made with
  | (.error e, s) => (.error e, s)
  | (.ok _, s) =>
    match s.fs.writeFileSync w.writeFileSync file (JSON.stringify info 2) with
    | .error e => (.error e, s.call .writeFileSync false)
    | .ok fs2 =>
      (.ok (), emitGuidance network contractAddress
        { s.call .writeFileSync true with fs := fs2 })

/-- The warning of the catch block, line 64. -/
def constantsWarning (message : String) : String :=
  "⚠️  Could not fetch contract constants:" ++ " " ++ message

/-- Lines 53-65: read three constants back and print them; any failure is caught
and reported as a warning. -/
def verifyConstants (w : World) (s : State) : State :=
  match w.LATE_PENALTY_RATE with
  | .error e => (s.call .LATE_PENALTY_RATE false).log (constantsWarning e)
  | .ok latePenaltyRate =>
    let s := s.call .LATE_PENALTY_RATE true
    match w.GRACE_PERIOD with
    | .error e => (s.call .GRACE_PERIOD false).log (constantsWarning e)
    | .ok gracePeriod =>
      let s := s.call .GRACE_PERIOD true
      match w.SECONDS_IN_MONTH with
      | .error e => (s.call .SECONDS_IN_MONTH false).log (constantsWarning e)
      | .ok secondsInMonth =>
        let s := s.call .SECONDS_IN_MONTH true
        let s := s.log "\n⚙️  Contract Constants:"
        let s := s.log ("Late Penalty Rate: " ++ toString latePenaltyRate ++ "%")
        let s := s.log ("Grace Period: " ++ toString gracePeriod ++ " seconds ("
          ++ w.days gracePeriod ++ " days)")
        s.log ("Seconds in Month: " ++ toString secondsInMonth ++ " seconds ("
          ++ w.days secondsInMonth ++ " days)")

/-- Lines 43-51: the contract information block. -/
def displayInformation (network : String) (chainId : Option Nat)
    (contractAddress : String) (deployer : Signer) (deploymentTx : TxResponse)
    (s : State) : State :=
  let s := s.log "\n📋 Contract Information:"
  let s := s.log "=========================================="
  let s := s.log "Contract Name: RentPaymentSystem"
  let s := s.log ("Contract Address: " ++ contractAddress)
  let s := s.log ("Network: " ++ network)
  let s := s.log ("Chain ID: " ++ showChainId chainId)
  let s := s.log ("Deployer: " ++ deployer.address)
  s.log ("Transaction Hash: " ++ deploymentTx.hash)

/-- What lines 5-41 leave in scope for the rest of `main`. -/
structure Deployed where
  deployer : Signer
  contractAddress : String
  deploymentTx : TxResponse
deriving DecidableEq, Repr

/-- Lines 5-41 of `main`: resolve the network and the signer, broadcast the
deployment, wait for inclusion and for two confirmations. -/
def deployAndConfirm (w : World) (fs : FS) : Except String Deployed × State :=
  let s : State := { trace := [], fs := fs }
  let s := s.log "🚀 Starting deployment of RentPaymentSystem..."
  let network := w.networkName
  let chainId := w.chainId
  let s := s.log ("📡 Network: " ++ network)
  let s := s.log ("🔗 Chain ID: " ++ showChainId chainId)
  match w.getSigners with
  | .error e => (.error e, s.call .getSigners false)
  | .ok signers =>
    let s := s.call .getSigners true
    match signers.head? with
    | none =>
      (.error undefinedAddress, s.call .deployerAddress false)
    | some deployer =>
      let s := s.call .deployerAddress true
      let s := s.log ("👤 Deploying with account: " ++ deployer.address)
      match w.getBalance with
      | .error e => (.error e, s.call .getBalance false)
      | .ok balance =>
        let s := s.call .getBalance true
        let s := s.log ("💰 Account balance: " ++ w.formatEther balance ++ " ETH")
        let s := s.log "\n📦 Deploying RentPaymentSystem contract..."
        match w.getContractFactory with
        | .error e => (.error e, s.call .getContractFactory false)
        | .ok _ =>
          let s := s.call .getContractFactory true
          match w.deploy with
          | .error e => (.error e, s.call .deploy false)
          | .ok deploymentTx =>
            let s := s.call .deploy true
            match w.waitForDeployment with
            | .error e => (.error e, s.call .waitForDeployment false)
            | .ok _ =>
              let s := s.call .waitForDeployment true
              match w.getAddress with
              | .error e => (.error e, s.call .getAddress false)
              | .ok contractAddress =>
                let s := s.call .getAddress true
                let s := s.log ("✅ RentPaymentSystem deployed to: " ++ contractAddress)
                let s := s.log ("📄 Deployment transaction hash: " ++ deploymentTx.hash)
                let s := s.log "⏳ Waiting for confirmations..."
                match w.wait with
                | .error e => (.error e, s.call .wait false)
                | .ok _ =>
                  let s := s.call .wait true
                  let s := s.log "✅ Contract confirmed!"
                  (.ok ⟨deployer, contractAddress, deploymentTx⟩, s)

/-- The function `main` of lines 4-96, started on file system `fs`: the result of
the promise together with the state reached. -/
def main (w : World) (fs : FS) : Except String Unit × State :=
  match deployAndConfirm w fs with
  | (.error e, s) => (.error e, s)
  | (.ok d, s) =>
    let s := displayInformation w.networkName w.chainId d.contractAddress d.deployer
      d.deploymentTx s
    let s := verifyConstants w s
    saveDeployment w w.networkName w.chainId d.contractAddress d.deployer d.deploymentTx s

/-- Result of a whole run of the script. -/
structure Outcome where
  trace : List Event
  fs : FS
  exitCode : Nat
deriving DecidableEq, Repr

/-- The line `console.error("❌ Deployment failed:", error)`. -/
def failureLine (cause : String) : String :=
  "❌ Deployment failed:" ++ " " ++ cause

/-- Lines 100-105: run `main`, exit 0 when it resolves, report and exit 1 when
it rejects. -/
def run (w : World) (fs : FS) : Outcome :=
  match main w fs with
  | (.ok _, s) => { trace := s.trace ++ [Event.exit 0], fs := s.fs, exitCode := 0 }
  | (.error e, s) =>
    { trace := s.trace ++ [Event.error (failureLine e), Event.exit 1], fs := s.fs,
      exitCode := 1 }

/-- Lines written to standard output, in order. -/
def Outcome.stdout (o : Outcome) : List String :=
  o.trace.filterMap (fun ev => match ev with | .log l => some l | _ => none)

/-- Lines written to the error stream, in order. -/
def Outcome.stderr (o : Outcome) : List String :=
  o.trace.filterMap (fun ev => match ev with | .error l => some l | _ => none)

/-! ## Vocabulary of the specification -/

/-- The file system once `deployments` is known to exist: unchanged when the
path was there, with the directory added otherwise. -/
def dirEnsured (fs : FS) : FS :=
  if fs.existsSync "deployments" then fs
  else { fs with dirs := "deployments" :: fs.dirs }

/-- The cause with which a call of the pipeline fails in world `w`, started on
file system `fs`; `none` when it succeeds (or, for `mkdirSync`, is not needed). -/
def Call.failure (w : World) (fs : FS) : Call → Option String
  | .getSigners => thrown w.getSigners
  | .deployerAddress =>
    match w.getSigners with
    | .ok [] => some undefinedAddress
    | _ => none
  | .getBalance => thrown w.getBalance
  | .getContractFactory => thrown w.getContractFactory
  | .deploy => thrown w.deploy
  | .waitForDeployment => thrown w.waitForDeployment
  | .getAddress => thrown w.getAddress
  | .wait => thrown w.wait
  | .LATE_PENALTY_RATE => thrown w.LATE_PENALTY_RATE
  | .GRACE_PERIOD => thrown w.GRACE_PERIOD
  | .SECONDS_IN_MONTH => thrown w.SECONDS_IN_MONTH
  | .mkdirSync =>
    if fs.existsSync "deployments" then none
    else fs.mkdirFault w.mkdirSync "deployments"
  | .writeFileSync =>
    (dirEnsured fs).writeFault w.writeFileSync (deploymentFile w.networkName)

/-- The stages whose failure is not caught, in pipeline order: signer
resolution, balance fetch, factory lookup, broadcast, waitForDeployment,
getAddress, wait(2), directory creation, file write. -/
def fatalCalls : List Call :=
  [.getSigners, .deployerAddress, .getBalance, .getContractFactory, .deploy,
   .waitForDeployment, .getAddress, .wait, .mkdirSync, .writeFileSync]

/-- The first stage, in pipeline order, that fails uncaught, with its cause. -/
def firstFailure (w : World) (fs : FS) : Option (Call × String) :=
  fatalCalls.findSome? (fun c => (c.failure w fs).map (fun e => (c, e)))

/-- The first failure of the constants read-back, if any: the message of the
warning. -/
def readBackFailure (w : World) : Option String :=
  match thrown w.LATE_PENALTY_RATE with
  | some e => some e
  | none =>
    match thrown w.GRACE_PERIOD with
    | some e => some e
    | none => thrown w.SECONDS_IN_MONTH

/-- The deployment record of a run in world `w`: the object literal of lines
69-77 built from the first signer, the address returned by `getAddress()` and
the deployment transaction. -/
def recordOf (w : World) : Option (List (String × JSVal)) :=
  match w.getSigners, w.deploy, w.getAddress with
  | .ok (deployer :: _), .ok deploymentTx, .ok contractAddress =>
    some (deploymentInfo w.networkName w.chainId contractAddress deployer.address
      deploymentTx.hash w.now deploymentTx.blockNumber)
  | _, _, _ => none

/-- The event is a call made strictly before stage `c` of the pipeline, or is
not a call. -/
def Event.before (c : Call) : Event → Bool
  | .call c1 _ => decide (c1.index < c.index)
  | .log _ => true
  | .error _ => false
  | .exit _ => false

/-! ## Vocabulary of the proofs -/

/-- Events of lines 43-51. -/
def informationEvents (w : World) (d : Deployed) : List Event :=
  (displayInformation w.networkName w.chainId d.contractAddress d.deployer d.deploymentTx
    { trace := [], fs := emptyFS }).trace

/-- Events of the constants read-back, lines 53-65. -/
def constantsEvents (w : World) : List Event :=
  (verifyConstants w { trace := [], fs := emptyFS }).trace

/-- Events of lines 87-95. -/
def guidanceEvents (network contractAddress : String) : List Event :=
  (emitGuidance network contractAddress { trace := [], fs := emptyFS }).trace

/-- Events of lines 82-84 when they succeed. -/
def dirEvents (fs : FS) : List Event :=
  if fs.existsSync "deployments" then [] else [Event.call .mkdirSync true]

/-- Events before the directory is looked at, in a run whose lines 5-41 succeed. -/
def confirmedEvents (w : World) (fs : FS) (d : Deployed) : List Event :=
  (deployAndConfirm w fs).2.trace ++ informationEvents w d ++ constantsEvents w

/-- The text written to the record file. -/
def recordText (w : World) (d : Deployed) : String :=
  JSON.stringify (deploymentInfo w.networkName w.chainId d.contractAddress d.deployer.address
    d.deploymentTx.hash w.now d.deploymentTx.blockNumber) 2

/-- Lines 5-41 succeeded in world `w`, leaving `d` in scope. -/
def Confirmed (w : World) (fs : FS) (d : Deployed) : Prop :=
  (∃ tl, w.getSigners = .ok (d.deployer :: tl)) ∧ w.deploy = .ok d.deploymentTx ∧
    w.getAddress = .ok d.contractAddress ∧
    (∀ c : Call, c.index ≤ 7 → c.failure w fs = none) ∧
    (deployAndConfirm w fs).1 = .ok d ∧ (deployAndConfirm w fs).2.fs = fs

/-- First two characters of a console line. -/
def lead (s : String) : List Char := s.data.take 2

/-- The event is one of the two verification-guidance lines of lines 91-92, as
told by how the line starts. -/
def Event.isGuidance : Event → Bool
  | .log l => lead l == ['\n', '🔍'] || lead l == ['n', 'p']
  | _ => false

/-- The same world with other answers to the three read-only calls. -/
def World.withConstants (w : World) (l g m : Except String Nat) : World :=
  { w with LATE_PENALTY_RATE := l, GRACE_PERIOD := g, SECONDS_IN_MONTH := m }

/-- The same world with a chain id configured. -/
def World.withChainId (w : World) (c : Option Nat) : World :=
  { w with chainId := c }

/-- The event is a failed call of lines 5-41. -/
def Event.failedEarly : Event → Bool
  | .call c false => decide (c.index ≤ 7)
  | _ => false

/-! ## Sample worlds -/

/-- A world in which every call succeeds, on the live `sepolia` network: the
transaction is still pending when `deploy()` returns, and is included in
block 4711. -/
def okWorld : World where
  networkName := "sepolia"
  chainId := some 11155111
  getSigners := .ok [⟨"0xf39Fd6e51aad88F6F4ce6aB8827279cffFb92266"⟩]
  getBalance := .ok 1000000000000000000
  formatEther := fun _ => "1.0"
  getContractFactory := .ok ()
  deploy := .ok ⟨"0x9c1e7d0b5a3f", none⟩
  waitForDeployment := .ok ()
  getAddress := .ok "0x5FbDB2315678afecb367f032d93F642f64180aa3"
  wait := .ok ⟨4711⟩
  LATE_PENALTY_RATE := .ok 5
  GRACE_PERIOD := .ok 259200
  SECONDS_IN_MONTH := .ok 2592000
  days := fun n => toString (n / 86400)
  now := "2024-01-01T00:00:00.000Z"
  mkdirSync := .ok ()
  writeFileSync := .ok ()

/-- A later deployment on `sepolia`, with another transaction and address. -/
def laterWorld : World :=
  { okWorld with
    deploy := .ok ⟨"0x77aa01", none⟩
    getAddress := .ok "0xe7f1725E7734CE288F8367e1Bb143E90bb3F0512"
    now := "2024-02-02T00:00:00.000Z" }

/-- The `sepolia` world with no `chainId` in the network configuration. -/
def noChainIdWorld : World := okWorld.withChainId none

/-- The `sepolia` world in which `waitForDeployment()` times out. -/
def inclusionTimeoutWorld : World := { okWorld with waitForDeployment := .error "timeout" }

/-- The `sepolia` world in which `deploymentTx.wait(2)` times out. -/
def confirmationTimeoutWorld : World := { okWorld with wait := .error "timeout" }

/-- The `sepolia` world in which the broadcast is refused. -/
def brokeWorld : World := { okWorld with deploy := .error "insufficient funds" }

/-- The `sepolia` world with no account configured: `getSigners()` resolves to
an empty array. -/
def noSignerWorld : World := { okWorld with getSigners := .ok [] }

/-- The `sepolia` world whose contract lacks `GRACE_PERIOD`. -/
def noConstantsWorld : World :=
  okWorld.withConstants (.ok 5) (.error "GRACE_PERIOD is not a function") (.ok 2592000)

/-- The world of the local `hardhat` network. -/
def hardhatWorld : World := { okWorld with networkName := "hardhat", chainId := some 31337 }

/-- A file system holding an earlier record for `sepolia` and another file. -/
def usedFS : FS :=
  { dirs := ["deployments"],
    files := [("deployments/sepolia_deployment.json", "old"), ("README.md", "readme")] }

/-! ## The two composed console lines -/

/-- The line of `console.error("❌ Deployment failed:", error)`, spelled out. -/
theorem failureLine_eq (cause : String) :
    failureLine cause = "❌ Deployment failed: " ++ cause :=
  congrArg (fun p => p ++ cause) (by decide : "❌ Deployment failed:" ++ " " = "❌ Deployment failed: ")

/-- The line of the catch block of line 64, spelled out. -/
theorem constantsWarning_eq (message : String) :
    constantsWarning message = "⚠️  Could not fetch contract constants: " ++ message :=
  congrArg (fun p => p ++ message)
    (by decide : "⚠️  Could not fetch contract constants:" ++ " "
      = "⚠️  Could not fetch contract constants: ")

/-! ## The shapes of a run -/

/-- Either lines 5-41 abort at their first failing call, or every call of
theirs succeeded and the wait for two confirmations has returned. -/
theorem deployAndConfirm_cases (w : World) (fs : FS) :
    (∃ c e pre, c.index ≤ 7 ∧ firstFailure w fs = some (c, e) ∧
        deployAndConfirm w fs = (.error e, ⟨pre ++ [Event.call c false], fs⟩) ∧
        pre.all (Event.before c) = true) ∨
    (∃ d tl bal tx a r u1 u2, w.getSigners = .ok (d :: tl) ∧ w.getBalance = .ok bal ∧
        w.getContractFactory = .ok u1 ∧ w.deploy = .ok tx ∧ w.waitForDeployment = .ok u2 ∧
        w.getAddress = .ok a ∧ w.wait = .ok r ∧
        (deployAndConfirm w fs).1 = .ok ⟨d, a, tx⟩ ∧ (deployAndConfirm w fs).2.fs = fs) := by
  rcases h1 : w.getSigners with e | sl
  · left
    refine ⟨.getSigners, e, (deployAndConfirm w fs).2.trace.dropLast, by decide, ?_, ?_, ?_⟩
    · simp [firstFailure, fatalCalls, Call.failure, thrown, h1]
    · simp [deployAndConfirm, h1, State.log, State.call]
    · simp [deployAndConfirm, h1, State.log, State.call, Event.before, Call.index]
  rcases sl with _ | ⟨d, tl⟩
  · left
    refine ⟨.deployerAddress, undefinedAddress, (deployAndConfirm w fs).2.trace.dropLast,
      by decide, ?_, ?_, ?_⟩
    · simp [firstFailure, fatalCalls, Call.failure, thrown, h1]
    · simp [deployAndConfirm, h1, State.log, State.call]
    · simp [deployAndConfirm, h1, State.log, State.call, Event.before, Call.index]
  rcases h3 : w.getBalance with e | bal
  · left
    refine ⟨.getBalance, e, (deployAndConfirm w fs).2.trace.dropLast, by decide, ?_, ?_, ?_⟩
    · simp [firstFailure, fatalCalls, Call.failure, thrown, h1, h3]
    · simp [deployAndConfirm, h1, h3, State.log, State.call]
    · simp [deployAndConfirm, h1, h3, State.log, State.call, Event.before, Call.index]
  rcases h4 : w.getContractFactory with e | u1
  · left
    refine ⟨.getContractFactory, e, (deployAndConfirm w fs).2.trace.dropLast, by decide,
      ?_, ?_, ?_⟩
    · simp [firstFailure, fatalCalls, Call.failure, thrown, h1, h3, h4]
    · simp [deployAndConfirm, h1, h3, h4, State.log, State.call]
    · simp [deployAndConfirm, h1, h3, h4, State.log, State.call, Event.before, Call.index]
  rcases h5 : w.deploy with e | tx
  · left
    refine ⟨.deploy, e, (deployAndConfirm w fs).2.trace.dropLast, by decide, ?_, ?_, ?_⟩
    · simp [firstFailure, fatalCalls, Call.failure, thrown, h1, h3, h4, h5]
    · simp [deployAndConfirm, h1, h3, h4, h5, State.log, State.call]
    · simp [deployAndConfirm, h1, h3, h4, h5, State.log, State.call, Event.before, Call.index]
  rcases h6 : w.waitForDeployment with e | u2
  · left
    refine ⟨.waitForDeployment, e, (deployAndConfirm w fs).2.trace.dropLast, by decide,
      ?_, ?_, ?_⟩
    · simp [firstFailure, fatalCalls, Call.failure, thrown, h1, h3, h4, h5, h6]
    · simp [deployAndConfirm, h1, h3, h4, h5, h6, State.log, State.call]
    · simp [deployAndConfirm, h1, h3, h4, h5, h6, State.log, State.call, Event.before,
        Call.index]
  rcases h7 : w.getAddress with e | a
  · left
    refine ⟨.getAddress, e, (deployAndConfirm w fs).2.trace.dropLast, by decide, ?_, ?_, ?_⟩
    · simp [firstFailure, fatalCalls, Call.failure, thrown, h1, h3, h4, h5, h6, h7]
    · simp [deployAndConfirm, h1, h3, h4, h5, h6, h7, State.log, State.call]
    · simp [deployAndConfirm, h1, h3, h4, h5, h6, h7, State.log, State.call, Event.before,
        Call.index]
  rcases h8 : w.wait with e | r
  · left
    refine ⟨.wait, e, (deployAndConfirm w fs).2.trace.dropLast, by decide, ?_, ?_, ?_⟩
    · simp [firstFailure, fatalCalls, Call.failure, thrown, h1, h3, h4, h5, h6, h7, h8]
    · simp [deployAndConfirm, h1, h3, h4, h5, h6, h7, h8, State.log, State.call]
    · simp [deployAndConfirm, h1, h3, h4, h5, h6, h7, h8, State.log, State.call,
        Event.before, Call.index]
  right
  exact ⟨d, tl, bal, tx, a, r, u1, u2, rfl, rfl, rfl, rfl, rfl, rfl, rfl,
    by simp [deployAndConfirm, h1, h3, h4, h5, h6, h7, h8],
    by simp [deployAndConfirm, h1, h3, h4, h5, h6, h7, h8, State.log, State.call]⟩

/-! ## Lemmas on the file system -/

theorem setFile_lookup_self (p c : String) (l : List (String × String)) :
    (setFile p c l).lookup p = some c := by
  induction l with
  | nil => simp [setFile, List.lookup]
  | cons hd tl ih =>
    obtain ⟨q, d⟩ := hd
    by_cases hq : q = p
    · simp [setFile, hq, List.lookup]
    · have : (p == q) = false := by simpa using fun h => hq h.symm
      simp [setFile, hq, List.lookup, this, ih]

theorem setFile_lookup_other (p c q : String) (l : List (String × String)) (h : q ≠ p) :
    (setFile p c l).lookup q = l.lookup q := by
  induction l with
  | nil =>
    have : (q == p) = false := by simpa using h
    simp [setFile, List.lookup, this]
  | cons hd tl ih =>
    obtain ⟨r, d⟩ := hd
    by_cases hr : r = p
    · subst hr
      have : (q == r) = false := by simpa using h
      simp [setFile, List.lookup, this]
    · by_cases hqr : q = r
      · simp [setFile, hr, List.lookup, hqr]
      · have : (q == r) = false := by simpa using hqr
        simp [setFile, hr, List.lookup, this, ih]

/-! ## Lemmas on the stages of `main` -/

theorem displayInformation_eq (w : World) (d : Deployed) (s : State) :
    displayInformation w.networkName w.chainId d.contractAddress d.deployer d.deploymentTx s
      = { s with trace := s.trace ++ informationEvents w d } := by
  simp [informationEvents, displayInformation, State.log]

theorem verifyConstants_eq (w : World) (s : State) :
    verifyConstants w s = { s with trace := s.trace ++ constantsEvents w } := by
  unfold constantsEvents verifyConstants
  repeat' split
  all_goals simp [State.log, State.call]

theorem emitGuidance_eq (network contractAddress : String) (s : State) :
    emitGuidance network contractAddress s
      = { s with trace := s.trace ++ guidanceEvents network contractAddress } := by
  unfold guidanceEvents emitGuidance
  split <;> simp [State.log]

/-- What `main` does once lines 5-41 have succeeded: one of directory creation
failing, the write failing, or the record being written. -/
theorem main_of_confirmed (w : World) (fs : FS) (d : Deployed)
    (h1 : (deployAndConfirm w fs).1 = .ok d) (h2 : (deployAndConfirm w fs).2.fs = fs) :
    (∃ e, Call.failure w fs .mkdirSync = some e ∧
        main w fs = (.error e,
          ⟨confirmedEvents w fs d ++ [Event.call .mkdirSync false], fs⟩)) ∨
    (∃ e, Call.failure w fs .mkdirSync = none ∧ Call.failure w fs .writeFileSync = some e ∧
        main w fs = (.error e,
          ⟨confirmedEvents w fs d ++ dirEvents fs ++ [Event.call .writeFileSync false],
            dirEnsured fs⟩)) ∨
    (Call.failure w fs .mkdirSync = none ∧ Call.failure w fs .writeFileSync = none ∧
        main w fs = (.ok (),
          ⟨confirmedEvents w fs d ++ dirEvents fs ++ [Event.call .writeFileSync true]
            ++ guidanceEvents w.networkName d.contractAddress,
           ⟨(dirEnsured fs).dirs,
            setFile (deploymentFile w.networkName) (recordText w d) fs.files⟩⟩)) := by
  have hm : main w fs = saveDeployment w w.networkName w.chainId d.contractAddress d.deployer
      d.deploymentTx ⟨confirmedEvents w fs d, fs⟩ := by
    unfold main
    rcases hd : deployAndConfirm w fs with ⟨r, s⟩
    rw [hd] at h1 h2
    simp only at h1 h2
    subst h1 h2
    simp [displayInformation_eq, verifyConstants_eq, confirmedEvents, hd]
  rw [hm]
  by_cases hex : fs.existsSync "deployments" = true
  · rcases hw : fs.writeFault w.writeFileSync (deploymentFile w.networkName) with _ | e
    · right; right
      simp [saveDeployment, hex, Call.failure, dirEnsured, dirEvents, FS.writeFileSync, hw,
        emitGuidance_eq, State.call, recordText]
    · right; left
      refine ⟨e, ?_⟩
      simp [saveDeployment, hex, Call.failure, dirEnsured, dirEvents, FS.writeFileSync, hw,
        State.call]
  · rcases hk : fs.mkdirFault w.mkdirSync "deployments" with _ | e
    · rcases hw : FS.writeFault ⟨"deployments" :: fs.dirs, fs.files⟩ w.writeFileSync
          (deploymentFile w.networkName) with _ | e
      · right; right
        simp [saveDeployment, hex, Call.failure, dirEnsured, dirEvents, FS.writeFileSync, hw,
          emitGuidance_eq, State.call, recordText, FS.mkdirSync, hk]
      · right; left
        refine ⟨e, ?_⟩
        simp [saveDeployment, hex, Call.failure, dirEnsured, dirEvents, FS.writeFileSync, hw,
          State.call, FS.mkdirSync, hk]
    · left
      refine ⟨e, ?_⟩
      simp [saveDeployment, hex, Call.failure, State.call, FS.mkdirSync, hk]

/-- The shapes a run can take: it aborts in lines 5-41, or at the directory
creation, or at the write, or it completes. -/
theorem run_cases (w : World) (fs : FS) :
    (∃ c e pre, c.index ≤ 7 ∧ firstFailure w fs = some (c, e) ∧
        deployAndConfirm w fs = (.error e, ⟨pre ++ [Event.call c false], fs⟩) ∧
        run w fs = ⟨pre ++ [Event.call c false, Event.error (failureLine e), Event.exit 1],
          fs, 1⟩ ∧ pre.all (Event.before c) = true) ∨
    (∃ d e, Confirmed w fs d ∧ firstFailure w fs = some (.mkdirSync, e) ∧
        run w fs = ⟨confirmedEvents w fs d ++
          [Event.call .mkdirSync false, Event.error (failureLine e), Event.exit 1], fs, 1⟩) ∨
    (∃ d e, Confirmed w fs d ∧ firstFailure w fs = some (.writeFileSync, e) ∧
        run w fs = ⟨confirmedEvents w fs d ++ dirEvents fs ++
          [Event.call .writeFileSync false, Event.error (failureLine e), Event.exit 1],
          dirEnsured fs, 1⟩) ∨
    (∃ d, Confirmed w fs d ∧ firstFailure w fs = none ∧
        run w fs = ⟨confirmedEvents w fs d ++ dirEvents fs ++ [Event.call .writeFileSync true]
            ++ guidanceEvents w.networkName d.contractAddress ++ [Event.exit 0],
          ⟨(dirEnsured fs).dirs,
            setFile (deploymentFile w.networkName) (recordText w d) fs.files⟩, 0⟩) := by
  rcases deployAndConfirm_cases w fs with
    ⟨c, e, pre, hc, hff, hd, hpre⟩ | ⟨d, tl, bal, tx, a, r, u1, u2, h1, h3, h4, h5, h6, h7, h8, hd, hfs⟩
  · left
    refine ⟨c, e, pre, hc, hff, hd, ?_, hpre⟩
    simp [run, main, hd]
  · right
    have hconf : Confirmed w fs ⟨d, a, tx⟩ := by
      refine ⟨⟨tl, h1⟩, h5, h7, ?_, hd, hfs⟩
      intro c hc
      cases c <;> simp [Call.index] at hc <;>
        simp [Call.failure, thrown, h1, h3, h4, h5, h6, h7, h8]
    rcases main_of_confirmed w fs ⟨d, a, tx⟩ hd hfs with ⟨e, hk, hm⟩ | ⟨e, hk, hwf, hm⟩ | ⟨hk, hwf, hm⟩
    · left
      refine ⟨_, e, hconf, ?_, ?_⟩
      · simp [firstFailure, fatalCalls, thrown, h1, h3, h4, h5, h6, h7, h8, hk,
          Call.failure.eq_1, Call.failure.eq_2, Call.failure.eq_3, Call.failure.eq_4,
          Call.failure.eq_5, Call.failure.eq_6, Call.failure.eq_7, Call.failure.eq_8]
      · simp [run, hm]
    · right; left
      refine ⟨_, e, hconf, ?_, ?_⟩
      · simp [firstFailure, fatalCalls, thrown, h1, h3, h4, h5, h6, h7, h8, hk, hwf,
          Call.failure.eq_1, Call.failure.eq_2, Call.failure.eq_3, Call.failure.eq_4,
          Call.failure.eq_5, Call.failure.eq_6, Call.failure.eq_7, Call.failure.eq_8]
      · simp [run, hm]
    · right; right
      refine ⟨_, hconf, ?_, ?_⟩
      · simp [firstFailure, fatalCalls, thrown, h1, h3, h4, h5, h6, h7, h8, hk, hwf,
          Call.failure.eq_1, Call.failure.eq_2, Call.failure.eq_3, Call.failure.eq_4,
          Call.failure.eq_5, Call.failure.eq_6, Call.failure.eq_7, Call.failure.eq_8]
      · simp [run, hm]

/-! ## Lemmas on traces -/

theorem mem_head_of_split {α : Type} (A B pre post : List α) (x : α)
    (h : A ++ B = pre ++ x :: post) (hx : x ∉ A) : ∀ a ∈ A, a ∈ pre := by
  intro a ha
  rcases List.append_eq_append_iff.mp h with ⟨r, hr, -⟩ | ⟨r, hr, hr2⟩
  · rw [hr]; exact List.mem_append_left _ ha
  · cases r with
    | nil => simp at hr; rw [← hr]; exact ha
    | cons y t =>
      simp at hr2
      exact absurd (by rw [hr, hr2.1]; simp) hx

theorem deployAndConfirm_early (w : World) (fs : FS) :
    (deployAndConfirm w fs).2.trace.all (Event.before .LATE_PENALTY_RATE) = true := by
  unfold deployAndConfirm
  repeat' split
  all_goals simp [State.log, State.call, Event.before, Call.index]

theorem deployAndConfirm_waits (w : World) (fs : FS) (d : Deployed)
    (h : (deployAndConfirm w fs).1 = .ok d) :
    Event.call .waitForDeployment true ∈ (deployAndConfirm w fs).2.trace ∧
    Event.call .wait true ∈ (deployAndConfirm w fs).2.trace := by
  unfold deployAndConfirm at h ⊢
  repeat' split
  all_goals simp_all [State.log, State.call]

theorem informationEvents_before (w : World) (d : Deployed) (c : Call) :
    (informationEvents w d).all (Event.before c) = true := by
  simp [informationEvents, displayInformation, State.log, Event.before]

theorem constantsEvents_before (w : World) :
    (constantsEvents w).all (Event.before .mkdirSync) = true := by
  unfold constantsEvents verifyConstants
  repeat' split
  all_goals simp [State.log, State.call, Event.before, Call.index]

theorem before_mono (c c1 : Call) (h : c.index ≤ c1.index) (l : List Event)
    (hl : l.all (Event.before c) = true) : l.all (Event.before c1) = true := by
  simp only [List.all_eq_true] at hl ⊢
  intro ev hev
  have := hl ev hev
  cases ev <;> simp_all [Event.before]
  omega

theorem confirmedEvents_before (w : World) (fs : FS) (d : Deployed) :
    (confirmedEvents w fs d).all (Event.before .mkdirSync) = true := by
  unfold confirmedEvents
  rw [List.all_append, List.all_append,
    before_mono _ _ (by decide) _ (deployAndConfirm_early w fs),
    informationEvents_before, constantsEvents_before]
  rfl

theorem dirEvents_before (fs : FS) :
    (dirEvents fs).all (Event.before .writeFileSync) = true := by
  unfold dirEvents
  split <;> simp [Event.before, Call.index]

/-- No directory is created and no file written before lines 5-41 are over. -/
theorem deployAndConfirm_no_fs_call (w : World) (fs : FS) (c : Call) (b : Bool)
    (hc : c = .mkdirSync ∨ c = .writeFileSync) :
    Event.call c b ∉ (deployAndConfirm w fs).2.trace := by
  intro hmem
  have := List.all_eq_true.mp (deployAndConfirm_early w fs) _ hmem
  rcases hc with rfl | rfl <;> simp [Event.before, Call.index] at this

/-- An aborted run of lines 5-41 holds no file system call at all. -/
theorem early_no_fs_call (c0 : Call) (e : String) (pre : List Event) (hc0 : c0.index ≤ 7)
    (hpre : pre.all (Event.before c0) = true) (c : Call) (b : Bool)
    (hc : c = .mkdirSync ∨ c = .writeFileSync) :
    Event.call c b ∉ pre ++ [Event.call c0 false, Event.error (failureLine e), Event.exit 1] := by
  intro hmem
  simp only [List.mem_append, List.mem_cons, List.mem_singleton, List.mem_nil_iff] at hmem
  rcases hmem with hmem | hmem | hmem | hmem | hmem
  · have := List.all_eq_true.mp hpre _ hmem
    have h11 : Call.mkdirSync.index = 11 := rfl
    have h12 : Call.writeFileSync.index = 12 := rfl
    simp only [Event.before, decide_eq_true_eq] at this
    rcases hc with rfl | rfl <;> omega
  · injection hmem with h1 h2
    subst h1
    rcases hc with rfl | rfl <;> simp [Call.index] at hc0
  · cases hmem
  · cases hmem
  · exact hmem

/-! ## C1 -/

/-- C1: in every run, a call of `fs.mkdirSync` or `fs.writeFileSync` comes in the
trace only after `waitForDeployment()` and `deploymentTx.wait(2)` have both
returned successfully; and when either of the two waits fails, the file system
is left exactly as it was before the run. -/
theorem C1_record_written_only_after_confirmation (w : World) (fs : FS) :
    (∀ (c : Call) (b : Bool) (pre post : List Event),
        (c = .mkdirSync ∨ c = .writeFileSync) →
        (run w fs).trace = pre ++ Event.call c b :: post →
        Event.call .waitForDeployment true ∈ pre ∧ Event.call .wait true ∈ pre) ∧
    ((thrown w.waitForDeployment ≠ none ∨ thrown w.wait ≠ none) → (run w fs).fs = fs) := by
  have key : ∀ (d : Deployed) (rest : List Event), Confirmed w fs d →
      ∀ (c : Call) (b : Bool) (pre post : List Event),
        (c = .mkdirSync ∨ c = .writeFileSync) →
        confirmedEvents w fs d ++ rest = pre ++ Event.call c b :: post →
        Event.call .waitForDeployment true ∈ pre ∧ Event.call .wait true ∈ pre := by
    intro d rest hconf c b pre post hc h
    have hw := deployAndConfirm_waits w fs d hconf.2.2.2.2.1
    unfold confirmedEvents at h
    rw [List.append_assoc, List.append_assoc] at h
    have := mem_head_of_split _ _ _ _ _ h (deployAndConfirm_no_fs_call w fs c b hc)
    exact ⟨this _ hw.1, this _ hw.2⟩
  rcases run_cases w fs with ⟨c0, e, pre0, hc0, -, -, hrun, hpre⟩ | ⟨d, e, hconf, -, hrun⟩ |
    ⟨d, e, hconf, -, hrun⟩ | ⟨d, hconf, -, hrun⟩
  · refine ⟨?_, fun _ => by rw [hrun]⟩
    intro c b pre post hc h
    exfalso
    apply early_no_fs_call c0 e pre0 hc0 hpre c b hc
    rw [hrun] at h
    simp only at h
    rw [h]
    simp
  · refine ⟨?_, ?_⟩
    · intro c b pre post hc h
      rw [hrun] at h
      exact key d _ hconf c b pre post hc h
    · intro _; rw [hrun]
  · refine ⟨?_, ?_⟩
    · intro c b pre post hc h
      rw [hrun] at h
      simp only [List.append_assoc] at h
      exact key d _ hconf c b pre post hc h
    · intro h
      exfalso
      have h5 := hconf.2.2.2.1 .waitForDeployment (by decide)
      have h7 := hconf.2.2.2.1 .wait (by decide)
      simp only [Call.failure] at h5 h7
      rcases h with h | h
      · exact h h5
      · exact h h7
  · refine ⟨?_, ?_⟩
    · intro c b pre post hc h
      rw [hrun] at h
      simp only [List.append_assoc] at h
      exact key d _ hconf c b pre post hc h
    · intro h
      exfalso
      have h5 := hconf.2.2.2.1 .waitForDeployment (by decide)
      have h7 := hconf.2.2.2.1 .wait (by decide)
      simp only [Call.failure] at h5 h7
      rcases h with h | h
      · exact h h5
      · exact h h7

/-! ## Exit code and first failure -/

theorem firstFailure_eq_none_iff (w : World) (fs : FS) :
    firstFailure w fs = none ↔ ∀ c ∈ fatalCalls, c.failure w fs = none := by
  simp [firstFailure]

theorem exitCode_eq_zero_iff (w : World) (fs : FS) :
    (run w fs).exitCode = 0 ↔ firstFailure w fs = none := by
  rcases run_cases w fs with ⟨c0, e, pre0, -, hff, -, hrun, -⟩ | ⟨d, e, -, hff, hrun⟩ |
    ⟨d, e, -, hff, hrun⟩ | ⟨d, -, hff, hrun⟩ <;> simp [hrun, hff]

theorem exitCode_of_failure (w : World) (fs : FS) (c : Call) (e : String)
    (h : firstFailure w fs = some (c, e)) : (run w fs).exitCode = 1 := by
  rcases run_cases w fs with ⟨c0, e, pre0, -, hff, -, hrun, -⟩ | ⟨d, e, -, hff, hrun⟩ |
    ⟨d, e, -, hff, hrun⟩ | ⟨d, -, hff, hrun⟩ <;> simp_all

/-- The first failure is a fatal stage that fails with that cause, every fatal
stage before it succeeding. -/
theorem firstFailure_spec (w : World) (fs : FS) (c : Call) (e : String)
    (h : firstFailure w fs = some (c, e)) :
    c ∈ fatalCalls ∧ c.failure w fs = some e ∧
      ∀ c1 ∈ fatalCalls, c1.index < c.index → c1.failure w fs = none := by
  unfold firstFailure at h
  rcases List.findSome?_eq_some_iff.mp h with ⟨l1, a, l2, hl, ha, hnone⟩
  have hac : a = c ∧ a.failure w fs = some e := by
    cases hf : a.failure w fs with
    | none => simp [hf] at ha
    | some e1 =>
      simp [hf] at ha
      exact ⟨ha.1, by rw [ha.2]⟩
  obtain ⟨rfl, hfa⟩ := hac
  refine ⟨by rw [hl]; simp, hfa, ?_⟩
  intro c1 hc1 hlt
  have hin : c1 ∈ l1 := by
    have hsorted : fatalCalls.Pairwise (fun x y => x.index < y.index) := by decide
    rw [hl] at hc1 hsorted
    rcases List.mem_append.mp hc1 with h1 | h1
    · exact h1
    · exfalso
      rcases List.mem_cons.mp h1 with h1 | h1
      · rw [h1] at hlt; exact Nat.lt_irrefl _ hlt
      · have := (List.pairwise_cons.mp (List.pairwise_append.mp hsorted).2.1).1 c1 h1
        omega
  have := hnone c1 hin
  cases hf : c1.failure w fs with
  | none => rfl
  | some e1 => simp [hf] at this

/-! ## C2 -/

/-- C2: when the broadcast `RentPaymentSystem.deploy()` fails, the process exits
with code 1, the file system is unchanged, and neither `fs.mkdirSync` nor
`fs.writeFileSync` is called. -/
theorem C2_broadcast_failure_leaves_files_untouched (w : World) (fs : FS) (cause : String)
    (h : w.deploy = .error cause) :
    (run w fs).exitCode = 1 ∧ (run w fs).fs = fs ∧
      ∀ (c : Call) (b : Bool), (c = .mkdirSync ∨ c = .writeFileSync) →
        Event.call c b ∉ (run w fs).trace := by
  rcases run_cases w fs with ⟨c0, e, pre0, hc0, hff, -, hrun, hpre⟩ | ⟨d, e, hconf, -, -⟩ |
    ⟨d, e, hconf, -, -⟩ | ⟨d, hconf, -, -⟩
  · refine ⟨by rw [hrun], by rw [hrun], ?_⟩
    intro c b hc
    rw [hrun]
    exact early_no_fs_call c0 e pre0 hc0 hpre c b hc
  all_goals
    have := hconf.2.1
    rw [h] at this
    cases this

/-! ## C8 -/

/-- C8: the exit code is 0 exactly when every fatal stage (all stages but the
constants read-back) succeeds; when the first failing fatal stage is `c`, with
cause `e`, the exit code is 1, and the trace ends with the failed call, the
line `❌ Deployment failed: ` followed by `e` as the only line of the error
stream, and the exit, everything before being console lines and calls of
stages strictly before `c`. -/
theorem C8_exit_code_and_abort (w : World) (fs : FS) :
    ((run w fs).exitCode = 0 ↔ ∀ c ∈ fatalCalls, c.failure w fs = none) ∧
    ((∃ c ∈ fatalCalls, c.failure w fs ≠ none) →
      (run w fs).exitCode = 1 ∧
      ∃ (c : Call) (e : String) (pre : List Event),
        c ∈ fatalCalls ∧ c.failure w fs = some e ∧
        (∀ c1 ∈ fatalCalls, c1.index < c.index → c1.failure w fs = none) ∧
        (run w fs).trace =
          pre ++ [Event.call c false, Event.error ("❌ Deployment failed: " ++ e),
            Event.exit 1] ∧
        (run w fs).stderr = ["❌ Deployment failed: " ++ e] ∧
        pre.all (Event.before c) = true) := by
  refine ⟨by rw [exitCode_eq_zero_iff, firstFailure_eq_none_iff], ?_⟩
  intro hfail
  simp only [← failureLine_eq]
  have hne : firstFailure w fs ≠ none := by
    rw [Ne, firstFailure_eq_none_iff]
    rcases hfail with ⟨c, hc, hcf⟩
    exact fun hall => hcf (hall c hc)
  have hstderr : ∀ (pre : List Event) (c : Call) (e : String),
      pre.all (Event.before c) = true →
      List.filterMap (fun ev => match ev with | Event.error l => some l | _ => none)
        (pre ++ [Event.call c false, Event.error (failureLine e), Event.exit 1])
        = [failureLine e] := by
    intro pre c e hpre
    have : List.filterMap (fun ev => match ev with | Event.error l => some l | _ => none) pre
        = [] := by
      rw [List.filterMap_eq_nil_iff]
      intro ev hev
      have := List.all_eq_true.mp hpre ev hev
      cases ev <;> simp_all [Event.before]
    rw [List.filterMap_append, this]
    simp [List.filterMap_cons]
  rcases run_cases w fs with ⟨c0, e, pre0, hc0, hff, -, hrun, hpre⟩ | ⟨d, e, hconf, hff, hrun⟩ |
    ⟨d, e, hconf, hff, hrun⟩ | ⟨d, hconf, hff, hrun⟩
  · obtain ⟨h1, h2, h3⟩ := firstFailure_spec w fs c0 e hff
    refine ⟨by rw [hrun], c0, e, pre0, h1, h2, h3, by rw [hrun], ?_, hpre⟩
    rw [Outcome.stderr, hrun]
    exact hstderr pre0 c0 e hpre
  · obtain ⟨h1, h2, h3⟩ := firstFailure_spec w fs _ e hff
    have hpre := confirmedEvents_before w fs d
    refine ⟨by rw [hrun], _, e, _, h1, h2, h3, by rw [hrun], ?_, hpre⟩
    rw [Outcome.stderr, hrun]
    exact hstderr _ _ e hpre
  · obtain ⟨h1, h2, h3⟩ := firstFailure_spec w fs _ e hff
    have hpre : (confirmedEvents w fs d ++ dirEvents fs).all (Event.before .writeFileSync)
        = true := by
      rw [List.all_append, before_mono _ _ (by decide) _ (confirmedEvents_before w fs d),
        dirEvents_before]
      rfl
    refine ⟨by rw [hrun], _, e, _, h1, h2, h3, by rw [hrun], ?_, hpre⟩
    rw [Outcome.stderr, hrun]
    exact hstderr _ _ e hpre
  · exact absurd hff hne

/-! ## Successful runs -/

theorem recordOf_of_confirmed (w : World) (fs : FS) (d : Deployed) (h : Confirmed w fs d) :
    recordOf w = some (deploymentInfo w.networkName w.chainId d.contractAddress
      d.deployer.address d.deploymentTx.hash w.now d.deploymentTx.blockNumber) := by
  obtain ⟨⟨tl, h1⟩, h2, h3, -⟩ := h
  simp [recordOf, h1, h2, h3]

theorem guidanceEvents_before (network contractAddress : String) (c : Call) :
    (guidanceEvents network contractAddress).all (Event.before c) = true := by
  unfold guidanceEvents emitGuidance
  split <;> simp [State.log, Event.before]

/-- A run that exits 0 has completed every stage: its trace and its final file
system are those of the full pipeline. -/
theorem run_of_success (w : World) (fs : FS) (h : (run w fs).exitCode = 0) :
    ∃ d r, Confirmed w fs d ∧ recordOf w = some r ∧ recordText w d = JSON.stringify r 2 ∧
      (run w fs).trace = confirmedEvents w fs d ++ dirEvents fs ++
        [Event.call .writeFileSync true] ++ guidanceEvents w.networkName d.contractAddress ++
        [Event.exit 0] ∧
      (run w fs).fs = ⟨(dirEnsured fs).dirs,
        setFile (deploymentFile w.networkName) (JSON.stringify r 2) fs.files⟩ := by
  rcases run_cases w fs with ⟨c0, e, pre0, -, -, -, hrun, -⟩ | ⟨d, e, -, -, hrun⟩ |
    ⟨d, e, -, -, hrun⟩ | ⟨d, hconf, -, hrun⟩
  · rw [hrun] at h; cases h
  · rw [hrun] at h; cases h
  · rw [hrun] at h; cases h
  · exact ⟨d, _, hconf, recordOf_of_confirmed w fs d hconf, rfl, by rw [hrun], by rw [hrun]; rfl⟩

theorem dirEnsured_exists (fs : FS) : (dirEnsured fs).existsSync "deployments" = true := by
  unfold dirEnsured
  split
  · assumption
  · simp [FS.existsSync]

theorem dirEnsured_idem (fs : FS) : dirEnsured (dirEnsured fs) = dirEnsured fs := by
  rw [dirEnsured.eq_1 (dirEnsured fs), if_pos (dirEnsured_exists fs)]

theorem dirEnsured_files (fs : FS) : (dirEnsured fs).files = fs.files := by
  unfold dirEnsured
  split <;> rfl

theorem call_mem_dirEvents (fs : FS) (b : Bool) :
    Event.call .mkdirSync b ∈ dirEvents fs ↔ (fs.existsSync "deployments" = false ∧ b = true) := by
  unfold dirEvents
  split <;> simp_all

/-! ## C7 -/

/-- C7: after a successful run on network `n`, from any prior file system, the
file `deployments/<n>_deployment.json` holds exactly the serialization of this
run's record, whatever it held before (so a second successful run leaves its
own record only); every other file is unchanged; the directory `deployments`
is created exactly when it was absent, and the same run started with the
directory already there succeeds with the same final file system. -/
theorem C7_record_overwritten_and_frame (w : World) (fs : FS)
    (h : (run w fs).exitCode = 0) :
    ∃ r, recordOf w = some r ∧
      (run w fs).fs.readFile (deploymentFile w.networkName) = some (JSON.stringify r 2) ∧
      (∀ fs1, (run w fs1).exitCode = 0 →
        (run w fs1).fs.readFile (deploymentFile w.networkName) = some (JSON.stringify r 2)) ∧
      (∀ q, q ≠ deploymentFile w.networkName →
        (run w fs).fs.readFile q = fs.readFile q) ∧
      (run w fs).fs.dirs =
        (if fs.existsSync "deployments" then fs.dirs else "deployments" :: fs.dirs) ∧
      ((∃ b, Event.call .mkdirSync b ∈ (run w fs).trace) ↔
        fs.existsSync "deployments" = false) ∧
      (run w (dirEnsured fs)).exitCode = 0 ∧ (run w (dirEnsured fs)).fs = (run w fs).fs := by
  obtain ⟨d, r, hconf, hr, -, htrace, hfs⟩ := run_of_success w fs h
  refine ⟨r, hr, ?_, ?_, ?_, ?_, ?_, ?_⟩
  · rw [hfs]; exact setFile_lookup_self _ _ _
  · intro fs1 h1
    obtain ⟨d1, r1, -, hr1, -, -, hfs1⟩ := run_of_success w fs1 h1
    rw [hr] at hr1
    cases hr1
    rw [hfs1]; exact setFile_lookup_self _ _ _
  · intro q hq
    rw [hfs]; exact setFile_lookup_other _ _ _ _ hq
  · rw [hfs]
    unfold dirEnsured
    split <;> rfl
  · rw [htrace]
    constructor
    · rintro ⟨b, hb⟩
      simp only [List.mem_append, List.mem_singleton] at hb
      rcases hb with (((hb | hb) | hb) | hb) | hb
      · have := List.all_eq_true.mp (confirmedEvents_before w fs d) _ hb
        simp [Event.before, Call.index] at this
      · exact ((call_mem_dirEvents fs b).mp hb).1
      · cases hb
      · have := List.all_eq_true.mp (guidanceEvents_before _ _ .getSigners) _ hb
        simp [Event.before, Call.index] at this
      · cases hb
    · intro hex
      refine ⟨true, ?_⟩
      simp only [List.mem_append]
      exact Or.inl (Or.inl (Or.inl (Or.inr ((call_mem_dirEvents fs true).mpr ⟨hex, rfl⟩))))
  · have h0 : (run w (dirEnsured fs)).exitCode = 0 := by
      rw [exitCode_eq_zero_iff, firstFailure_eq_none_iff]
      have hall := (firstFailure_eq_none_iff w fs).mp ((exitCode_eq_zero_iff w fs).mp h)
      intro c hc
      have hcf := hall c hc
      cases c <;>
        first
        | exact hcf
        | (simp only [Call.failure, dirEnsured_exists, dirEnsured_idem] at hcf ⊢
           first
           | exact hcf
           | simp)
    refine ⟨h0, ?_⟩
    obtain ⟨d1, r1, -, hr1, -, -, hfs1⟩ := run_of_success w (dirEnsured fs) h0
    rw [hr] at hr1
    cases hr1
    rw [hfs1, hfs, dirEnsured_idem, dirEnsured_files]

/-! ## The guidance lines -/

theorem lead_append (a b : String) (h : 2 ≤ a.data.length) : lead (a ++ b) = lead a := by
  obtain ⟨l⟩ := a
  match l, h with
  | c1 :: c2 :: t, _ => simp [lead]

theorem deployAndConfirm_no_guidance (w : World) (fs : FS) :
    (deployAndConfirm w fs).2.trace.all (fun ev => !ev.isGuidance) = true := by
  unfold deployAndConfirm
  repeat' split
  all_goals simp [State.log, State.call, Event.isGuidance, lead_append, lead]

theorem informationEvents_no_guidance (w : World) (d : Deployed) :
    (informationEvents w d).all (fun ev => !ev.isGuidance) = true := by
  simp [informationEvents, displayInformation, State.log, Event.isGuidance, lead_append, lead]

theorem constantsEvents_no_guidance (w : World) :
    (constantsEvents w).all (fun ev => !ev.isGuidance) = true := by
  unfold constantsEvents verifyConstants
  repeat' split
  all_goals simp [State.log, State.call, Event.isGuidance, lead_append, lead, constantsWarning]

theorem dirEvents_no_guidance (fs : FS) :
    (dirEvents fs).all (fun ev => !ev.isGuidance) = true := by
  unfold dirEvents
  split <;> simp [Event.isGuidance]

theorem guidanceEvents_local (network contractAddress : String)
    (h : network = "hardhat" ∨ network = "localhost") :
    (guidanceEvents network contractAddress).all (fun ev => !ev.isGuidance) = true := by
  rcases h with rfl | rfl <;>
    simp [guidanceEvents, emitGuidance, State.log, Event.isGuidance, lead_append, lead]

theorem guidanceEvents_remote (network contractAddress : String)
    (h : network ≠ "hardhat" ∧ network ≠ "localhost") :
    Event.log "\n🔍 To verify the contract, run:" ∈ guidanceEvents network contractAddress ∧
    Event.log ("npx hardhat verify --network " ++ network ++ " " ++ contractAddress)
      ∈ guidanceEvents network contractAddress := by
  simp [guidanceEvents, emitGuidance, State.log, h.1, h.2]

theorem emitGuidance_fs (network contractAddress : String) (s : State) :
    (emitGuidance network contractAddress s).fs = s.fs := by
  rw [emitGuidance_eq]

/-! ## C4 -/

/-- C4: in a successful run on network `n`, with `a` the address returned by
`getAddress()` (the `contractAddress` of the record written to the file): when
`n` is `hardhat` or `localhost` neither guidance line is printed, whatever the
network name and address in it; for any other `n` both lines are printed, the
second being `npx hardhat verify --network n a`.  The guidance stage leaves the
file system as it finds it. -/
theorem C4_verification_guidance (w : World) (fs : FS) (h : (run w fs).exitCode = 0) :
    ∃ a r, w.getAddress = .ok a ∧ recordOf w = some r ∧
      ("contractAddress", JSVal.str a) ∈ r ∧
      (run w fs).fs.readFile (deploymentFile w.networkName) = some (JSON.stringify r 2) ∧
      ((w.networkName = "hardhat" ∨ w.networkName = "localhost") →
        Event.log "\n🔍 To verify the contract, run:" ∉ (run w fs).trace ∧
        ∀ x y, Event.log ("npx hardhat verify --network " ++ x ++ " " ++ y)
          ∉ (run w fs).trace) ∧
      ((w.networkName ≠ "hardhat" ∧ w.networkName ≠ "localhost") →
        Event.log "\n🔍 To verify the contract, run:" ∈ (run w fs).trace ∧
        Event.log ("npx hardhat verify --network " ++ w.networkName ++ " " ++ a)
          ∈ (run w fs).trace) ∧
      (∀ s : State, (emitGuidance w.networkName a s).fs = s.fs) := by
  obtain ⟨d, r, hconf, hr, -, htrace, hfs⟩ := run_of_success w fs h
  have hr2 := recordOf_of_confirmed w fs d hconf
  rw [hr] at hr2
  cases hr2
  refine ⟨d.contractAddress, _, hconf.2.2.1, hr, by simp [deploymentInfo], ?_, ?_, ?_,
    fun s => emitGuidance_fs _ _ s⟩
  · rw [hfs]; exact setFile_lookup_self _ _ _
  · intro hlocal
    have hall : (run w fs).trace.all (fun ev => !ev.isGuidance) = true := by
      rw [htrace]
      unfold confirmedEvents
      simp only [List.all_append, deployAndConfirm_no_guidance, informationEvents_no_guidance,
        constantsEvents_no_guidance, dirEvents_no_guidance,
        guidanceEvents_local _ _ hlocal]
      simp [Event.isGuidance]
    rw [List.all_eq_true] at hall
    constructor
    · intro hmem
      have := hall _ hmem
      simp [Event.isGuidance, lead] at this
    · intro x y hmem
      have := hall _ hmem
      simp [Event.isGuidance, lead, lead_append, String.append_assoc] at this
  · intro hremote
    obtain ⟨g1, g2⟩ := guidanceEvents_remote w.networkName d.contractAddress hremote
    rw [htrace]
    simp only [List.mem_append]
    exact ⟨Or.inl (Or.inr g1), Or.inl (Or.inr g2)⟩

/-! ## The constants read-back and the chain id -/

theorem constantsEvents_warning (w : World) (e : String) (h : readBackFailure w = some e) :
    Event.log (constantsWarning e) ∈ constantsEvents w ∧
      ∃ c, c.isReadBack = true ∧ Event.call c false ∈ constantsEvents w := by
  unfold readBackFailure at h
  unfold constantsEvents verifyConstants
  rcases h1 : w.LATE_PENALTY_RATE with e1 | v1
  · simp [h1, thrown] at h
    subst h
    exact ⟨by simp [State.log, State.call], .LATE_PENALTY_RATE, rfl,
      by simp [State.log, State.call]⟩
  rcases h2 : w.GRACE_PERIOD with e2 | v2
  · simp [h1, h2, thrown] at h
    subst h
    exact ⟨by simp [State.log, State.call], .GRACE_PERIOD, rfl,
      by simp [State.log, State.call]⟩
  rcases h3 : w.SECONDS_IN_MONTH with e3 | v3
  · simp [h1, h2, h3, thrown] at h
    subst h
    exact ⟨by simp [State.log, State.call], .SECONDS_IN_MONTH, rfl,
      by simp [State.log, State.call]⟩
  · simp [h1, h2, h3, thrown] at h

theorem firstFailure_withConstants (w : World) (fs : FS) (l g m : Except String Nat) :
    firstFailure (w.withConstants l g m) fs = firstFailure w fs := rfl

theorem recordOf_withConstants (w : World) (l g m : Except String Nat) :
    recordOf (w.withConstants l g m) = recordOf w := rfl

theorem firstFailure_withChainId (w : World) (fs : FS) (c : Option Nat) :
    firstFailure (w.withChainId c) fs = firstFailure w fs := rfl

/-! ## C3 -/

/-- C3: when every fatal stage succeeds and the constants read-back fails with
message `e` (at whichever of the three calls), the failed call is followed by
the warning `⚠️  Could not fetch contract constants: e` on the console, the
record is written and the exit code is 0; and the final file system and the
exit code are those of the same run with any other answers to the three calls,
successful ones included. -/
theorem C3_constants_failure_is_not_fatal (w : World) (fs : FS) (e : String)
    (hfatal : ∀ c ∈ fatalCalls, c.failure w fs = none)
    (hread : readBackFailure w = some e) :
    (∃ c, c.isReadBack = true ∧ Event.call c false ∈ (run w fs).trace) ∧
    Event.log ("⚠️  Could not fetch contract constants: " ++ e) ∈ (run w fs).trace ∧
    (run w fs).exitCode = 0 ∧
    (∃ r, recordOf w = some r ∧
      (run w fs).fs.readFile (deploymentFile w.networkName) = some (JSON.stringify r 2)) ∧
    ∀ l g m : Except String Nat,
      (run (w.withConstants l g m) fs).fs = (run w fs).fs ∧
      (run (w.withConstants l g m) fs).exitCode = (run w fs).exitCode := by
  have h0 : (run w fs).exitCode = 0 := by
    rw [exitCode_eq_zero_iff, firstFailure_eq_none_iff]; exact hfatal
  obtain ⟨d, r, hconf, hr, -, htrace, hfs⟩ := run_of_success w fs h0
  obtain ⟨hwarn, c, hc, hcall⟩ := constantsEvents_warning w e hread
  have hsub : ∀ ev ∈ constantsEvents w, ev ∈ (run w fs).trace := by
    intro ev hev
    rw [htrace]
    unfold confirmedEvents
    simp only [List.mem_append]
    exact Or.inl (Or.inl (Or.inl (Or.inl (Or.inr hev))))
  rw [constantsWarning_eq] at hwarn
  refine ⟨⟨c, hc, hsub _ hcall⟩, hsub _ hwarn, h0, ⟨r, hr, ?_⟩, ?_⟩
  · rw [hfs]; exact setFile_lookup_self _ _ _
  · intro l g m
    have h1 : (run (w.withConstants l g m) fs).exitCode = 0 := by
      rw [exitCode_eq_zero_iff, firstFailure_withConstants, ← exitCode_eq_zero_iff]
      exact h0
    obtain ⟨d1, r1, -, hr1, -, -, hfs1⟩ := run_of_success (w.withConstants l g m) fs h1
    rw [recordOf_withConstants, hr] at hr1
    cases hr1
    exact ⟨by rw [hfs1, hfs]; rfl, by rw [h1, h0]⟩

/-! ## C9 -/

theorem deployAndConfirm_starts (w : World) (fs : FS) :
    Event.log ("🔗 Chain ID: " ++ showChainId w.chainId) ∈ (deployAndConfirm w fs).2.trace ∧
      ∃ b, Event.call .getSigners b ∈ (deployAndConfirm w fs).2.trace := by
  unfold deployAndConfirm
  repeat' split
  all_goals simp [State.log, State.call]

/-- The trace of a run extends the trace of its lines 5-41. -/
theorem run_trace_extends (w : World) (fs : FS) :
    ∃ rest, (run w fs).trace = (deployAndConfirm w fs).2.trace ++ rest := by
  rcases run_cases w fs with ⟨c0, e, pre0, -, -, hd, hrun, -⟩ | ⟨d, e, -, -, hrun⟩ |
    ⟨d, e, -, -, hrun⟩ | ⟨d, -, -, hrun⟩
  · exact ⟨_, by rw [hrun, hd]; simp; rfl⟩
  all_goals
    rw [hrun]
    unfold confirmedEvents
    simp only [List.append_assoc]
    exact ⟨_, rfl⟩

/-- C9 (amended): a missing chain id is not checked.  When
`hre.network.config.chainId` is `undefined`, the run prints
`🔗 Chain ID: undefined`, goes on to call `getSigners()`, and exits 0 exactly
when every fatal stage succeeds, with the exit code it would have had with any
chain id configured. -/
theorem C9_missing_chain_id_is_not_checked (w : World) (fs : FS) (h : w.chainId = none) :
    Event.log "🔗 Chain ID: undefined" ∈ (run w fs).trace ∧
    (∃ b, Event.call .getSigners b ∈ (run w fs).trace) ∧
    ((run w fs).exitCode = 0 ↔ ∀ c ∈ fatalCalls, c.failure w fs = none) ∧
    ∀ c : Option Nat, (run (w.withChainId c) fs).exitCode = (run w fs).exitCode := by
  obtain ⟨rest, hrest⟩ := run_trace_extends w fs
  obtain ⟨hlog, b, hb⟩ := deployAndConfirm_starts w fs
  rw [h] at hlog
  refine ⟨?_, ⟨b, ?_⟩, by rw [exitCode_eq_zero_iff, firstFailure_eq_none_iff], ?_⟩
  · rw [hrest]; exact List.mem_append_left _ hlog
  · rw [hrest]; exact List.mem_append_left _ hb
  · intro c
    cases hff : firstFailure w fs with
    | none =>
      rw [(exitCode_eq_zero_iff w fs).mpr hff,
        (exitCode_eq_zero_iff _ fs).mpr (by rw [firstFailure_withChainId]; exact hff)]
    | some ce =>
      rw [exitCode_of_failure w fs ce.1 ce.2 hff,
        exitCode_of_failure _ fs ce.1 ce.2 (by rw [firstFailure_withChainId]; exact hff)]

/-! ## Failed waits -/

theorem deployAndConfirm_ok_no_failure (w : World) (fs : FS) (d : Deployed)
    (h : (deployAndConfirm w fs).1 = .ok d) :
    (deployAndConfirm w fs).2.trace.all (fun ev => !ev.failedEarly) = true := by
  unfold deployAndConfirm at h ⊢
  repeat' split
  all_goals simp_all [State.log, State.call, Event.failedEarly]

theorem informationEvents_no_failure (w : World) (d : Deployed) :
    (informationEvents w d).all (fun ev => !ev.failedEarly) = true := by
  simp [informationEvents, displayInformation, State.log, Event.failedEarly]

theorem constantsEvents_no_failure (w : World) :
    (constantsEvents w).all (fun ev => !ev.failedEarly) = true := by
  unfold constantsEvents verifyConstants
  repeat' split
  all_goals simp [State.log, State.call, Event.failedEarly, Call.index]

theorem dirEvents_no_failure (fs : FS) :
    (dirEvents fs).all (fun ev => !ev.failedEarly) = true := by
  unfold dirEvents
  split <;> simp [Event.failedEarly]

theorem guidanceEvents_no_failure (network contractAddress : String) :
    (guidanceEvents network contractAddress).all (fun ev => !ev.failedEarly) = true := by
  unfold guidanceEvents emitGuidance
  split <;> simp [State.log, Event.failedEarly]

theorem confirmedEvents_no_failure (w : World) (fs : FS) (d : Deployed)
    (h : Confirmed w fs d) :
    (confirmedEvents w fs d).all (fun ev => !ev.failedEarly) = true := by
  unfold confirmedEvents
  simp only [List.all_append, deployAndConfirm_ok_no_failure w fs d h.2.2.2.2.1,
    informationEvents_no_failure, constantsEvents_no_failure]
  rfl

/-- A failed call of lines 5-41 in the trace of a run: the run is lines 5-41
followed by the report on the error stream and the exit. -/
theorem run_of_early_failure (w : World) (fs : FS) (c : Call) (hc : c.index ≤ 7)
    (h : Event.call c false ∈ (run w fs).trace) :
    Event.call c false ∈ (deployAndConfirm w fs).2.trace ∧
      ∃ e, (deployAndConfirm w fs).1 = .error e ∧
        run w fs = ⟨(deployAndConfirm w fs).2.trace ++
          [Event.error (failureLine e), Event.exit 1], fs, 1⟩ := by
  have hfe : (Event.call c false).failedEarly = true := by simp [Event.failedEarly, hc]
  have contra : ∀ l : List Event, l.all (fun ev => !ev.failedEarly) = true →
      Event.call c false ∈ l → False := by
    intro l hl hmem
    have := List.all_eq_true.mp hl _ hmem
    simp [hfe] at this
  rcases run_cases w fs with ⟨c0, e, pre0, -, -, hd, hrun, -⟩ | ⟨d, e, hconf, -, hrun⟩ |
    ⟨d, e, hconf, -, hrun⟩ | ⟨d, hconf, -, hrun⟩
  · rw [hrun] at h
    rw [hd]
    refine ⟨?_, e, rfl, ?_⟩
    · simpa using h
    · rw [hrun]; simp
  · exfalso
    rw [hrun] at h
    refine contra _ ?_ h
    simp only [List.all_append, confirmedEvents_no_failure w fs d hconf]
    simp [Event.failedEarly, Call.index]
  · exfalso
    rw [hrun] at h
    refine contra _ ?_ h
    simp only [List.all_append, confirmedEvents_no_failure w fs d hconf, dirEvents_no_failure]
    simp [Event.failedEarly, Call.index]
  · exfalso
    rw [hrun] at h
    refine contra _ ?_ h
    simp only [List.all_append, confirmedEvents_no_failure w fs d hconf, dirEvents_no_failure,
      guidanceEvents_no_failure]
    simp [Event.failedEarly]

/-- Lines 5-41 when `deploymentTx.wait(2)` is the call that fails. -/
theorem deployAndConfirm_of_wait_failure (w : World) (fs : FS)
    (h : Event.call .wait false ∈ (deployAndConfirm w fs).2.trace) :
    ∃ tx e pre, w.deploy = .ok tx ∧ w.wait = .error e ∧
      deployAndConfirm w fs = (.error e, ⟨pre ++ [Event.call .wait false], fs⟩) ∧
      Event.log ("📄 Deployment transaction hash: " ++ tx.hash) ∈ pre := by
  rcases h1 : w.getSigners with e | sl
  · simp [deployAndConfirm, h1, State.log, State.call] at h
  rcases sl with _ | ⟨d, tl⟩
  · simp [deployAndConfirm, h1, State.log, State.call] at h
  rcases h3 : w.getBalance with e | bal
  · simp [deployAndConfirm, h1, h3, State.log, State.call] at h
  rcases h4 : w.getContractFactory with e | u1
  · simp [deployAndConfirm, h1, h3, h4, State.log, State.call] at h
  rcases h5 : w.deploy with e | tx
  · simp [deployAndConfirm, h1, h3, h4, h5, State.log, State.call] at h
  rcases h6 : w.waitForDeployment with e | u2
  · simp [deployAndConfirm, h1, h3, h4, h5, h6, State.log, State.call] at h
  rcases h7 : w.getAddress with e | a
  · simp [deployAndConfirm, h1, h3, h4, h5, h6, h7, State.log, State.call] at h
  rcases h8 : w.wait with e | r
  · refine ⟨tx, e, (deployAndConfirm w fs).2.trace.dropLast, rfl, rfl, ?_, ?_⟩
    · simp [deployAndConfirm, h1, h3, h4, h5, h6, h7, h8, State.log, State.call]
    · simp [deployAndConfirm, h1, h3, h4, h5, h6, h7, h8, State.log, State.call]
  · simp [deployAndConfirm, h1, h3, h4, h5, h6, h7, h8, State.log, State.call] at h

/-- Lines 5-41 when `waitForDeployment()` is the call that fails. -/
theorem deployAndConfirm_of_waitForDeployment_failure (w : World) (fs : FS)
    (h : Event.call .waitForDeployment false ∈ (deployAndConfirm w fs).2.trace) :
    ∃ tx d tl bal e, w.deploy = .ok tx ∧ w.getSigners = .ok (d :: tl) ∧
      w.getBalance = .ok bal ∧ w.waitForDeployment = .error e ∧
      (deployAndConfirm w fs).1 = .error e ∧
      (deployAndConfirm w fs).2.trace.filterMap
          (fun ev => match ev with | .log l => some l | _ => none) =
        [ "🚀 Starting deployment of RentPaymentSystem...",
          "📡 Network: " ++ w.networkName,
          "🔗 Chain ID: " ++ showChainId w.chainId,
          "👤 Deploying with account: " ++ d.address,
          "💰 Account balance: " ++ w.formatEther bal ++ " ETH",
          "\n📦 Deploying RentPaymentSystem contract..." ] ∧
      (deployAndConfirm w fs).2.trace.filterMap
          (fun ev => match ev with | .error l => some l | _ => none) = [] := by
  rcases h1 : w.getSigners with e | sl
  · simp [deployAndConfirm, h1, State.log, State.call] at h
  rcases sl with _ | ⟨d, tl⟩
  · simp [deployAndConfirm, h1, State.log, State.call] at h
  rcases h3 : w.getBalance with e | bal
  · simp [deployAndConfirm, h1, h3, State.log, State.call] at h
  rcases h4 : w.getContractFactory with e | u1
  · simp [deployAndConfirm, h1, h3, h4, State.log, State.call] at h
  rcases h5 : w.deploy with e | tx
  · simp [deployAndConfirm, h1, h3, h4, h5, State.log, State.call] at h
  rcases h6 : w.waitForDeployment with e | u2
  · refine ⟨tx, d, tl, bal, e, rfl, rfl, rfl, rfl, ?_, ?_, ?_⟩
    · simp [deployAndConfirm, h1, h3, h4, h5, h6]
    · simp [deployAndConfirm, h1, h3, h4, h5, h6, State.log, State.call, List.filterMap_cons]
    · simp [deployAndConfirm, h1, h3, h4, h5, h6, State.log, State.call, List.filterMap_cons]
  rcases h7 : w.getAddress with e | a
  · simp [deployAndConfirm, h1, h3, h4, h5, h6, h7, State.log, State.call] at h
  rcases h8 : w.wait with e | r
  · simp [deployAndConfirm, h1, h3, h4, h5, h6, h7, h8, State.log, State.call] at h
  · simp [deployAndConfirm, h1, h3, h4, h5, h6, h7, h8, State.log, State.call] at h

/-! ## C10 -/

/-- C10 (amended): when `deploymentTx.wait(2)` fails, the line
`📄 Deployment transaction hash: <hash>` has been written to the console before
the failure is reported and the process exits 1.  When `waitForDeployment()`
fails, the console holds the six lines printed before the broadcast, none of
them built from the transaction, the error stream holds the failure cause, and
the process exits 1. -/
theorem C10_hash_logged_only_after_inclusion (w : World) (fs : FS) :
    (Event.call .wait false ∈ (run w fs).trace →
      ∃ tx e pre, w.deploy = .ok tx ∧ w.wait = .error e ∧
        (run w fs).trace =
          pre ++ [Event.call .wait false, Event.error (failureLine e), Event.exit 1] ∧
        Event.log ("📄 Deployment transaction hash: " ++ tx.hash) ∈ pre ∧
        (run w fs).exitCode = 1) ∧
    (Event.call .waitForDeployment false ∈ (run w fs).trace →
      ∃ tx d tl bal e, w.deploy = .ok tx ∧ w.getSigners = .ok (d :: tl) ∧
        w.getBalance = .ok bal ∧ w.waitForDeployment = .error e ∧
        (run w fs).stdout =
          [ "🚀 Starting deployment of RentPaymentSystem...",
            "📡 Network: " ++ w.networkName,
            "🔗 Chain ID: " ++ showChainId w.chainId,
            "👤 Deploying with account: " ++ d.address,
            "💰 Account balance: " ++ w.formatEther bal ++ " ETH",
            "\n📦 Deploying RentPaymentSystem contract..." ] ∧
        (run w fs).stderr = [failureLine e] ∧
        (run w fs).exitCode = 1) := by
  constructor
  · intro h
    obtain ⟨hmem, e0, he0, hrun⟩ := run_of_early_failure w fs .wait (by decide) h
    obtain ⟨tx, e, pre, hd, hw, hdac, hlog⟩ := deployAndConfirm_of_wait_failure w fs hmem
    rw [hdac] at he0 hrun
    cases he0
    exact ⟨tx, e0, pre, hd, hw, by rw [hrun]; simp, hlog, by rw [hrun]⟩
  · intro h
    obtain ⟨hmem, e0, he0, hrun⟩ :=
      run_of_early_failure w fs .waitForDeployment (by decide) h
    obtain ⟨tx, d, tl, bal, e, hd, hs, hb, hw, hres, hout, herr⟩ :=
      deployAndConfirm_of_waitForDeployment_failure w fs hmem
    rw [hres] at he0
    cases he0
    refine ⟨tx, d, tl, bal, e0, hd, hs, hb, hw, ?_, ?_, by rw [hrun]⟩
    · rw [Outcome.stdout, hrun]
      simp only [List.filterMap_append, hout]
      simp [List.filterMap_cons]
    · rw [Outcome.stderr, hrun]
      simp only [List.filterMap_append, herr]
      simp [List.filterMap_cons]


/-! ## Evaluation on the sample worlds -/

set_option maxRecDepth 100000

/-- C5: with no `chainId` in the network configuration the run succeeds and the
record file has six members, `chainId` being left out by `JSON.stringify`;
whatever the other fields, the serialized key set has seven keys exactly when
the chain id is set. -/
theorem C5_record_lacks_chainId_when_unconfigured :
    noChainIdWorld.chainId = none ∧
    (run noChainIdWorld emptyFS).exitCode = 0 ∧
    (run noChainIdWorld emptyFS).fs.readFile "deployments/sepolia_deployment.json" =
      some "\x7b\n  \"network\": \"sepolia\",\n  \"contractAddress\": \"0x5FbDB2315678afecb367f032d93F642f64180aa3\",\n  \"deployerAddress\": \"0xf39Fd6e51aad88F6F4ce6aB8827279cffFb92266\",\n  \"transactionHash\": \"0x9c1e7d0b5a3f\",\n  \"timestamp\": \"2024-01-01T00:00:00.000Z\",\n  \"blockNumber\": null\n\x7d" ∧
    (recordOf noChainIdWorld).map serializedKeys =
      some ["network", "contractAddress", "deployerAddress", "transactionHash", "timestamp",
        "blockNumber"] ∧
    (∀ (n a d h t : String) (b : Option Nat),
      serializedKeys (deploymentInfo n none a d h t b) =
        ["network", "contractAddress", "deployerAddress", "transactionHash", "timestamp",
          "blockNumber"]) ∧
    (∀ (n a d h t : String) (c : Nat) (b : Option Nat),
      serializedKeys (deploymentInfo n (some c) a d h t b) =
        ["network", "chainId", "contractAddress", "deployerAddress", "transactionHash",
          "timestamp", "blockNumber"]) := by
  refine ⟨rfl, by decide, by decide, by decide, ?_, ?_⟩
  · intro n a d h t b
    cases b <;> simp [serializedKeys, deploymentInfo, serializeValue]
  · intro n a d h t c b
    cases b <;> simp [serializedKeys, deploymentInfo, serializeValue]

/-- C6: on a live network the transaction is pending when `deploy()` returns;
the run succeeds, `wait(2)` reports inclusion in block 4711, and the record
holds `"blockNumber": null`, the value of the transaction response; the record
is the same whatever block the receipt reports. -/
theorem C6_block_number_is_taken_before_mining :
    okWorld.deploy = .ok ⟨"0x9c1e7d0b5a3f", none⟩ ∧
    okWorld.wait = .ok ⟨4711⟩ ∧
    (∀ receipt : Receipt, recordOf { okWorld with wait := .ok receipt } = recordOf okWorld) ∧
    (run okWorld emptyFS).exitCode = 0 ∧
    (recordOf okWorld).map (fun r => r.lookup "blockNumber") = some (some JSVal.null) ∧
    (run okWorld emptyFS).fs.readFile "deployments/sepolia_deployment.json" =
      some "\x7b\n  \"network\": \"sepolia\",\n  \"chainId\": 11155111,\n  \"contractAddress\": \"0x5FbDB2315678afecb367f032d93F642f64180aa3\",\n  \"deployerAddress\": \"0xf39Fd6e51aad88F6F4ce6aB8827279cffFb92266\",\n  \"transactionHash\": \"0x9c1e7d0b5a3f\",\n  \"timestamp\": \"2024-01-01T00:00:00.000Z\",\n  \"blockNumber\": null\n\x7d" :=
  ⟨rfl, rfl, fun _ => rfl, by decide, by decide, by decide⟩

/-- C9, as stated, fails: with no chain id configured the signer is resolved,
the deployment is broadcast, the record is written and the process exits 0. -/
theorem C9_counterexample :
    noChainIdWorld.chainId = none ∧
    Event.call .getSigners true ∈ (run noChainIdWorld emptyFS).trace ∧
    Event.call .deploy true ∈ (run noChainIdWorld emptyFS).trace ∧
    Event.call .writeFileSync true ∈ (run noChainIdWorld emptyFS).trace ∧
    (run noChainIdWorld emptyFS).fs ≠ emptyFS ∧
    (run noChainIdWorld emptyFS).exitCode = 0 := by
  decide

/-- C10, as stated, fails: when `waitForDeployment()` times out after a
successful broadcast, the process exits 1 and no line of the console or of the
error stream contains the transaction hash. -/
theorem C10_counterexample :
    inclusionTimeoutWorld.deploy = .ok ⟨"0x9c1e7d0b5a3f", none⟩ ∧
    Event.call .deploy true ∈ (run inclusionTimeoutWorld emptyFS).trace ∧
    Event.call .waitForDeployment false ∈ (run inclusionTimeoutWorld emptyFS).trace ∧
    (run inclusionTimeoutWorld emptyFS).exitCode = 1 ∧
    ∀ l ∈ (run inclusionTimeoutWorld emptyFS).stdout ++
        (run inclusionTimeoutWorld emptyFS).stderr,
      ¬ ("0x9c1e7d0b5a3f".data <:+: l.data) :=
  ⟨rfl, by decide, by decide, by decide, by decide⟩

/-! ## Witnesses -/

/-- C1 at work: in the all-successful run the write is the 35th event and both
waits have returned before it; when `wait(2)` times out the file system is the
initial one. -/
theorem C1_witness :
    (run okWorld emptyFS).trace =
        (run okWorld emptyFS).trace.take 34 ++ Event.call .writeFileSync true ::
          (run okWorld emptyFS).trace.drop 35 ∧
    (Event.call .waitForDeployment true ∈ (run okWorld emptyFS).trace.take 34 ∧
      Event.call .wait true ∈ (run okWorld emptyFS).trace.take 34) ∧
    thrown confirmationTimeoutWorld.wait ≠ none ∧
    (run confirmationTimeoutWorld usedFS).fs = usedFS :=
  ⟨by decide,
    (C1_record_written_only_after_confirmation okWorld emptyFS).1 .writeFileSync true
      ((run okWorld emptyFS).trace.take 34) ((run okWorld emptyFS).trace.drop 35)
      (Or.inr rfl) (by decide),
    by decide,
    (C1_record_written_only_after_confirmation confirmationTimeoutWorld usedFS).2
      (Or.inr (by decide))⟩

/-- C2 at work: the broadcast is refused for lack of funds. -/
theorem C2_witness :
    brokeWorld.deploy = .error "insufficient funds" ∧
    (run brokeWorld usedFS).exitCode = 1 ∧ (run brokeWorld usedFS).fs = usedFS ∧
      ∀ (c : Call) (b : Bool), (c = .mkdirSync ∨ c = .writeFileSync) →
        Event.call c b ∉ (run brokeWorld usedFS).trace :=
  ⟨rfl, C2_broadcast_failure_leaves_files_untouched brokeWorld usedFS "insufficient funds" rfl⟩

/-- C3 at work: the contract lacks `GRACE_PERIOD`. -/
theorem C3_witness :
    (∀ c ∈ fatalCalls, c.failure noConstantsWorld emptyFS = none) ∧
    readBackFailure noConstantsWorld = some "GRACE_PERIOD is not a function" ∧
    (∃ c, c.isReadBack = true ∧ Event.call c false ∈ (run noConstantsWorld emptyFS).trace) ∧
    Event.log "⚠️  Could not fetch contract constants: GRACE_PERIOD is not a function"
      ∈ (run noConstantsWorld emptyFS).trace ∧
    (run noConstantsWorld emptyFS).exitCode = 0 ∧
    (∃ r, recordOf noConstantsWorld = some r ∧
      (run noConstantsWorld emptyFS).fs.readFile (deploymentFile noConstantsWorld.networkName)
        = some (JSON.stringify r 2)) ∧
    ∀ l g m : Except String Nat,
      (run (noConstantsWorld.withConstants l g m) emptyFS).fs
        = (run noConstantsWorld emptyFS).fs ∧
      (run (noConstantsWorld.withConstants l g m) emptyFS).exitCode
        = (run noConstantsWorld emptyFS).exitCode :=
  ⟨by decide, by decide,
    C3_constants_failure_is_not_fatal noConstantsWorld emptyFS "GRACE_PERIOD is not a function"
      (by decide) (by decide)⟩

/-- C4 at work: a successful run on the local `hardhat` network prints neither
guidance line. -/
theorem C4_witness :
    (run hardhatWorld emptyFS).exitCode = 0 ∧
    Event.log "\n🔍 To verify the contract, run:" ∉ (run hardhatWorld emptyFS).trace ∧
    ∀ x y, Event.log ("npx hardhat verify --network " ++ x ++ " " ++ y)
      ∉ (run hardhatWorld emptyFS).trace :=
  ⟨by decide,
    match C4_verification_guidance hardhatWorld emptyFS (by decide) with
    | ⟨_, _, _, _, _, _, hlocal, _, _⟩ => hlocal (Or.inl rfl)⟩

/-- C7 at work: a later deployment on `sepolia`, run on the file system left by
an earlier one, leaves its own record in the file. -/
theorem C7_witness :
    (run laterWorld (run okWorld usedFS).fs).exitCode = 0 ∧
    ∃ r, recordOf laterWorld = some r ∧
      (run laterWorld (run okWorld usedFS).fs).fs.readFile
        (deploymentFile laterWorld.networkName) = some (JSON.stringify r 2) :=
  ⟨by decide,
    match C7_record_overwritten_and_frame laterWorld (run okWorld usedFS).fs (by decide) with
    | ⟨r, hr, hfile, _⟩ => ⟨r, hr, hfile⟩⟩

/-- C8 at work: the broadcast is refused, the run exits 1 and the error stream
holds the cause; every stage succeeds, the run exits 0. -/
theorem C8_witness :
    (∃ c ∈ fatalCalls, c.failure brokeWorld emptyFS ≠ none) ∧
    ((run brokeWorld emptyFS).exitCode = 1 ∧
      ∃ (c : Call) (e : String) (pre : List Event),
        c ∈ fatalCalls ∧ c.failure brokeWorld emptyFS = some e ∧
        (∀ c1 ∈ fatalCalls, c1.index < c.index → c1.failure brokeWorld emptyFS = none) ∧
        (run brokeWorld emptyFS).trace =
          pre ++ [Event.call c false, Event.error ("❌ Deployment failed: " ++ e),
            Event.exit 1] ∧
        (run brokeWorld emptyFS).stderr = ["❌ Deployment failed: " ++ e] ∧
        pre.all (Event.before c) = true) ∧
    (run brokeWorld emptyFS).stderr = ["❌ Deployment failed: insufficient funds"] ∧
    (run noSignerWorld emptyFS).stderr =
      ["❌ Deployment failed: TypeError: Cannot read properties of undefined (reading \x27address\x27)"] ∧
    (∀ c ∈ fatalCalls, c.failure okWorld emptyFS = none) ∧
    (run okWorld emptyFS).exitCode = 0 :=
  ⟨⟨.deploy, by decide, by decide⟩,
    (C8_exit_code_and_abort brokeWorld emptyFS).2 ⟨.deploy, by decide, by decide⟩,
    by decide, by decide, by decide,
    (C8_exit_code_and_abort okWorld emptyFS).1.mpr (by decide)⟩

/-- C9 (amended) at work: the `sepolia` configuration without a chain id. -/
theorem C9_witness :
    noChainIdWorld.chainId = none ∧
    Event.log "🔗 Chain ID: undefined" ∈ (run noChainIdWorld emptyFS).trace ∧
    (∃ b, Event.call .getSigners b ∈ (run noChainIdWorld emptyFS).trace) ∧
    ((run noChainIdWorld emptyFS).exitCode = 0 ↔
      ∀ c ∈ fatalCalls, c.failure noChainIdWorld emptyFS = none) ∧
    ∀ c : Option Nat,
      (run (noChainIdWorld.withChainId c) emptyFS).exitCode
        = (run noChainIdWorld emptyFS).exitCode :=
  ⟨rfl, C9_missing_chain_id_is_not_checked noChainIdWorld emptyFS rfl⟩

/-- C10 (amended) at work: `wait(2)` times out after the hash was printed. -/
theorem C10_witness :
    Event.call .wait false ∈ (run confirmationTimeoutWorld emptyFS).trace ∧
    ∃ tx e pre, confirmationTimeoutWorld.deploy = .ok tx ∧
      confirmationTimeoutWorld.wait = .error e ∧
      (run confirmationTimeoutWorld emptyFS).trace =
        pre ++ [Event.call .wait false, Event.error (failureLine e), Event.exit 1] ∧
      Event.log ("📄 Deployment transaction hash: " ++ tx.hash) ∈ pre ∧
      (run confirmationTimeoutWorld emptyFS).exitCode = 1 :=
  ⟨by decide,
    (C10_hash_logged_only_after_inclusion confirmationTimeoutWorld emptyFS).1 (by decide)⟩


end Deploy
